import Mathlib

/-!
Shallow embedding of the shader-substitution and resource-override engine in
`src/DirectX11/HackerDevice.cpp` (3Dmigoto), together with proofs about the
claims of its design specification.

Modelling conventions:
* Windows `FILETIME` values are modelled as `Nat`; `CompareFileTime` returning
  zero corresponds to equality of the two naturals.
* Byte blobs (shader bytecode, text sources) are `List Nat`.
* Calls into the OS / D3D runtime that can only fail on resource exhaustion
  (`GetFileTime` on an open handle, `ReadFile` of an open file, `D3DCreateBlob`,
  `fopen` for writing) are modelled as succeeding; file existence itself is part
  of the modelled environment.
* External collaborators (disassembler, HLSL compiler, decompiler, assembler,
  the real `ID3D11Device`) are parameters of the model, as in the source they
  are opaque black boxes.
-/

namespace HackerDevice

/-- Byte blobs: shader bytecode and text-file contents. -/
abbrev Bytes := List Nat

/-- An on-disk binary cache file: its contents and its last-write `FILETIME`. -/
structure BinFile where
  content : Bytes
  time : Nat
  deriving Repr, DecidableEq

/-- An on-disk text source file: its contents and its last-write `FILETIME`. -/
structure TxtFile where
  content : Bytes
  time : Nat
  deriving Repr, DecidableEq

/-- Result of `check_cache_timestamp`: whether the cached binary is accepted,
and the timestamp stored into the out-parameter (`none` when the function left
the caller's zero-initialised value untouched, which happens on the
no-`.txt`-file warning path). -/
structure CacheCheck where
  valid : Bool
  stamp : Option Nat
  deriving Repr, DecidableEq

/-- `check_cache_timestamp` (HackerDevice.cpp:692).  `binTime` is the
last-write time obtained from the open `.bin` handle; `txtTime` is the
last-write time of the same-named `.txt` file, `none` when that file does not
exist.  The `.bin` is valid only when `CompareFileTime` reports an exact match;
when the `.txt` is missing the binary is accepted with a logged warning. -/
def check_cache_timestamp (binTime : Nat) (txtTime : Option Nat) : CacheCheck :=
  match txtTime with
  | some t => if binTime = t then { valid := true, stamp := some t } else { valid := false, stamp := none }
  | none => { valid := true, stamp := none }

/-- The data a successful cache/stage lookup produces: the replacement
bytecode, the shader-model tag and the timestamp recorded for later staleness
checks (`none` models the zeroed `FILETIME {}`). -/
structure LoadedShader where
  code : Bytes
  shaderModel : String
  timeStamp : Option Nat
  deriving Repr, DecidableEq

/-- `load_cached_shader` (HackerDevice.cpp:742).  `bin` is the `.bin` file at
the given path (`none` = `CreateFile` fails, no such file); `txtTime` the
last-write time of the paired `.txt`.  A stale binary is discarded; an accepted
one is returned tagged with shader model "bin". -/
def load_cached_shader (bin : Option BinFile) (txtTime : Option Nat) : Option LoadedShader :=
  match bin with
  | none => none
  | some b =>
    let chk := check_cache_timestamp b.time txtTime
    if chk.valid then
      some { code := b.content, shaderModel := "bin", timeStamp := chk.stamp }
    else
      none

/-- The per-fingerprint slice of the ShaderFixes / ShaderCache directories and
the global configuration consulted by `_ReplaceShaderFromShaderFixes` and its
helpers.  File fields are `none` when the file does not exist.  The `.txt`
paired (by name) with `{hash}-{type}_replace.bin` is `{hash}-{type}_replace.txt`
= the HLSL source; the `.txt` paired with `{hash}-{type}.bin` is
`{hash}-{type}.txt` = the ASM source. -/
structure ShaderFixesEnv where
  shaderPathSet : Bool        -- G->SHADER_PATH[0] != 0
  shaderCachePathSet : Bool   -- G->SHADER_CACHE_PATH[0] != 0
  exportBinary : Bool         -- G->EXPORT_BINARY
  exportShaders : Bool        -- G->EXPORT_SHADERS
  replaceBin : Option BinFile -- SHADER_PATH\{hash}-{type}_replace.bin
  hlslTxt : Option TxtFile    -- SHADER_PATH\{hash}-{type}_replace.txt
  plainBin : Option BinFile   -- SHADER_PATH\{hash}-{type}.bin
  asmTxt : Option TxtFile     -- SHADER_PATH\{hash}-{type}.txt
  badMarker : Bool            -- SHADER_PATH\{hash}-{type}_bad.txt exists
  cacheReplaceTxt : Bool      -- SHADER_CACHE_PATH\{hash}-{type}_replace.txt exists
  exportHlsl : Nat            -- G->EXPORT_HLSL
  exportFixed : Bool          -- G->EXPORT_FIXED
  fixSvPosition : Bool        -- G->decompiler_settings.fixSvPosition
  recompileVs : Bool          -- G->decompiler_settings.recompileVs
  cacheShaders : Bool         -- G->CACHE_SHADERS
  overrideShaderModel : Option String -- model from a matching [ShaderOverride]
  now : Nat                   -- current FILETIME for freshly written files
  deriving Repr, DecidableEq

/-- Result of `DecompileBinaryHLSL` (external collaborator). -/
structure DecompileResult where
  code : Bytes
  patched : Bool
  model : String
  errorOccurred : Bool
  deriving Repr, DecidableEq

/-- Result of `assemble_flugan_with_optional_signature_parsing` (external
collaborator): `ok := false` models a thrown exception; otherwise the
reassembled bytes together with whether the parse-error list was non-empty. -/
structure AssembleResult where
  ok : Bool
  bytes : Bytes
  parseErrors : Bool
  deriving Repr, DecidableEq

/-- The external binary/text tool collaborators, as opaque functions. -/
structure Tools where
  getShaderModel : Bytes → String             -- get_shader_model; "" = failure
  compile : Bytes → String → Option Bytes     -- D3DCompile; none = no output blob
  disassemble : Bytes → Bytes                 -- binary_to_asm_text; [] = failure
  decompile : Bytes → Bytes → DecompileResult -- DecompileBinaryHLSL
  assemble : Bytes → Bytes → AssembleResult   -- assembler (asm text, template)

/-- Observable side effects of the resolution pipeline, used to state that a
tool or lookup was (not) invoked. -/
inductive Ev where
  | binLookup   : Ev  -- CreateFile attempted on a cached .bin path
  | compileCall : Ev  -- D3DCompile invoked
  | assembleCall : Ev -- the assembler invoked
  | decompileCall : Ev -- DecompileBinaryHLSL invoked
  deriving Repr, DecidableEq

/-- `load_binary_shaders` (HackerDevice.cpp:793): try the `_replace.bin`
cached-HLSL binary first, then the plain `.bin` reassembled-ASM binary; each
attempt opens the file (one `binLookup` event per attempt). -/
def load_binary_shaders (env : ShaderFixesEnv) : Option LoadedShader × List Ev :=
  match load_cached_shader env.replaceBin (env.hlslTxt.map TxtFile.time) with
  | some l => (some l, [Ev.binLookup])
  | none =>
    (load_cached_shader env.plainBin (env.asmTxt.map TxtFile.time), [Ev.binLookup, Ev.binLookup])

/-- `replace_hlsl_shader` (HackerDevice.cpp:815): if the `_replace.txt` HLSL
source exists, disassemble the original bytecode to recover its shader model
(failing the stage if that fails), pick the override model if configured, and
compile.  The recorded shader model is the disassembled one and the recorded
timestamp is the source file's, both set before compiling; the cache write-back
does not affect the returned value and is not modelled. -/
def replace_hlsl_shader (env : ShaderFixesEnv) (tools : Tools) (orig : Bytes) :
    Option LoadedShader × List Ev :=
  match env.hlslTxt with
  | none => (none, [])
  | some txt =>
    let m := tools.getShaderModel orig
    if m = "" then (none, [])
    else
      let useModel := env.overrideShaderModel.getD m
      match tools.compile txt.content useModel with
      | some c => (some { code := c, shaderModel := m, timeStamp := some txt.time }, [Ev.compileCall])
      | none => (none, [Ev.compileCall])

/-- `replace_asm_shader` (HackerDevice.cpp:955): if the `.txt` ASM source
exists, disassemble the original for its model, then reassemble the text
against the original bytecode as template.  An assembler exception fails the
stage; parse errors are non-fatal (the partial result is still offered) but the
timestamp is deliberately left zeroed so a manual reload always re-attempts. -/
def replace_asm_shader (env : ShaderFixesEnv) (tools : Tools) (orig : Bytes) :
    Option LoadedShader × List Ev :=
  match env.asmTxt with
  | none => (none, [])
  | some txt =>
    let m := tools.getShaderModel orig
    if m = "" then (none, [])
    else
      let r := tools.assemble txt.content orig
      if r.ok then
        (some { code := r.bytes, shaderModel := m,
                timeStamp := if r.parseErrors then none else some txt.time },
         [Ev.assembleCall])
      else (none, [Ev.assembleCall])

/-- The path-existence test of `decompile_and_possibly_patch_shader`: the
decompile target `_replace.txt` lives in ShaderCache when `EXPORT_HLSL >= 1`,
in ShaderFixes otherwise; if it already exists the stage is skipped. -/
def decompile_target_exists (env : ShaderFixesEnv) : Bool :=
  if env.exportHlsl ≥ 1 then env.cacheReplaceTxt else env.hlslTxt.isSome

/-- `decompile_and_possibly_patch_shader` (HackerDevice.cpp:1065): engaged only
when an export/auto-fix mode is on; skipped when the `_bad.txt` sentinel for
this fingerprint exists or the target file already exists.  Disassembles,
decompiles, (writes export artifacts - modelled as succeeding), recompiles, and
returns the recompiled code only when an automatic patch actually changed the
code.  The recorded model/timestamp are set only when the export file was
opened, i.e. when `EXPORT_HLSL >= 1` or (`EXPORT_FIXED` and patched). -/
def decompile_and_possibly_patch_shader (env : ShaderFixesEnv) (tools : Tools) (orig : Bytes) :
    Option LoadedShader × List Ev :=
  if env.exportHlsl = 0 ∧ ¬env.fixSvPosition ∧ ¬env.recompileVs then (none, [])
  else if env.badMarker then (none, [])
  else if decompile_target_exists env then (none, [])
  else
    let asmText := tools.disassemble orig
    if asmText = [] then (none, [])
    else
      let d := tools.decompile orig asmText
      if d.code = [] ∨ d.errorOccurred then (none, [Ev.decompileCall])
      else
        let fwOpened := env.exportHlsl ≥ 1 ∨ (env.exportFixed ∧ d.patched)
        let useModel := env.overrideShaderModel.getD d.model
        let compiled := tools.compile d.code useModel
        let res :=
          match compiled, d.patched with
          | some c, true =>
            some { code := c,
                   shaderModel := if fwOpened then d.model else "",
                   timeStamp := if fwOpened then some env.now else none }
          | _, _ => none
        (res, [Ev.decompileCall, Ev.compileCall])

/-- `HackerDevice::_ReplaceShaderFromShaderFixes` (HackerDevice.cpp:1284): the
replacement resolution pipeline.  Nothing is attempted when either configured
directory is unset; otherwise the stages run in order, short-circuiting on the
first success.  The `EXPORT_BINARY` / `EXPORT_SHADERS` export writes do not
influence the result and are not modelled. -/
def replaceShaderFromShaderFixesImpl (env : ShaderFixesEnv) (tools : Tools) (orig : Bytes) :
    Option LoadedShader × List Ev :=
  if ¬env.shaderPathSet ∨ ¬env.shaderCachePathSet then (none, [])
  else
    let s1 := load_binary_shaders env
    match s1.1 with
    | some l => (some l, s1.2)
    | none =>
      let s2 := replace_hlsl_shader env tools orig
      match s2.1 with
      | some l => (some l, s1.2 ++ s2.2)
      | none =>
        let s3 := replace_asm_shader env tools orig
        match s3.1 with
        | some l => (some l, s1.2 ++ s2.2 ++ s3.2)
        | none =>
          let s4 := decompile_and_possibly_patch_shader env tools orig
          match s4.1 with
          | some l => (some l, s1.2 ++ s2.2 ++ s3.2 ++ s4.2)
          | none => (none, s1.2 ++ s2.2 ++ s3.2 ++ s4.2)

/-- First-success combinator over a list of already-evaluated candidate stages,
accumulating the events of every attempted stage.  This is the spec's
"attempted in this fixed order, short-circuiting on first success". -/
def firstStage : List (Option LoadedShader × List Ev) → Option LoadedShader × List Ev
  | [] => (none, [])
  | s :: rest =>
    match s.1 with
    | some l => (some l, s.2)
    | none =>
      let r := firstStage rest
      (r.1, s.2 ++ r.2)

/-- The five candidate sources of the spec contract, in the spec's stated
order: cached `-replace` binary, plain cached binary, high-level-source
recompilation, assembly reassembly, decompile-and-auto-patch. -/
def specCandidates (env : ShaderFixesEnv) (tools : Tools) (orig : Bytes) :
    List (Option LoadedShader × List Ev) :=
  [ (load_cached_shader env.replaceBin (env.hlslTxt.map TxtFile.time), [Ev.binLookup]),
    (load_cached_shader env.plainBin (env.asmTxt.map TxtFile.time), [Ev.binLookup]),
    replace_hlsl_shader env tools orig,
    replace_asm_shader env tools orig,
    decompile_and_possibly_patch_shader env tools orig ]

/-- Helper: when both configured directories are set, the implementation
pipeline equals first-success resolution over the five spec candidates in
order. -/
theorem pipeline_eq_firstStage (env : ShaderFixesEnv) (tools : Tools) (orig : Bytes)
    (hp : env.shaderPathSet = true) (hc : env.shaderCachePathSet = true) :
    replaceShaderFromShaderFixesImpl env tools orig = firstStage (specCandidates env tools orig) := by
  unfold replaceShaderFromShaderFixesImpl specCandidates load_binary_shaders
  rw [hp, hc]
  simp only [not_true_eq_false, false_or, if_false]
  cases h1 : load_cached_shader env.replaceBin (env.hlslTxt.map TxtFile.time) with
  | some l => simp [firstStage, h1]
  | none =>
    cases h2 : load_cached_shader env.plainBin (env.asmTxt.map TxtFile.time) with
    | some l => simp [firstStage, h1, h2]
    | none =>
      cases h3 : (replace_hlsl_shader env tools orig).1 with
      | some l => simp [firstStage, h1, h2, h3]
      | none =>
        cases h4 : (replace_asm_shader env tools orig).1 with
        | some l => simp [firstStage, h1, h2, h3, h4]
        | none =>
          cases h5 : (decompile_and_possibly_patch_shader env tools orig).1 with
          | some l => simp [firstStage, h1, h2, h3, h4, h5]
          | none => simp [firstStage, h1, h2, h3, h4, h5]

/-- Helper: a trailing candidate that produced nothing and no events drops out
of first-success resolution. -/
theorem firstStage_drop_trailing_none (l : List (Option LoadedShader × List Ev)) :
    firstStage (l ++ [(none, [])]) = firstStage l := by
  induction l with
  | nil => simp [firstStage]
  | cons s rest ih =>
    cases hs : s.1 with
    | some x => simp [firstStage, hs]
    | none => simp [firstStage, hs, ih]

/-- Claim C1: a cached binary shader paired with a same-named text source is
accepted exactly when its stored timestamp equals the text source's timestamp;
any mismatch discards it as stale and the next pipeline candidate (the plain
`.bin`) is tried; a binary with no paired text source is accepted. -/
theorem cache_binary_accepted_iff_timestamp_equal
    (env : ShaderFixesEnv) (b : BinFile) (t : TxtFile)
    (hrb : env.replaceBin = some b) (hrt : env.hlslTxt = some t) :
    ((load_cached_shader (some b) (some t.time)).isSome ↔ b.time = t.time) ∧
    (∀ b2 : BinFile, load_cached_shader (some b2) none =
        some { code := b2.content, shaderModel := "bin", timeStamp := none }) ∧
    (b.time ≠ t.time →
      (load_binary_shaders env).1 = load_cached_shader env.plainBin (env.asmTxt.map TxtFile.time)) := by
  refine ⟨?_, ?_, ?_⟩
  · by_cases h : b.time = t.time <;> simp [load_cached_shader, check_cache_timestamp, h]
  · intro b2; simp [load_cached_shader, check_cache_timestamp]
  · intro h
    simp [load_binary_shaders, hrb, hrt, load_cached_shader, check_cache_timestamp, h]

/-- Concrete instance for the claim-C1 theorem: a stale replace binary (stored
time 5, source time 6) is rejected and the plain cached binary is used. -/
def envC1 : ShaderFixesEnv :=
  { shaderPathSet := true, shaderCachePathSet := true,
    exportBinary := false, exportShaders := false,
    replaceBin := some { content := [1, 2], time := 5 },
    hlslTxt := some { content := [9], time := 6 },
    plainBin := some { content := [3], time := 4 },
    asmTxt := some { content := [8], time := 4 },
    badMarker := false, cacheReplaceTxt := false,
    exportHlsl := 0, exportFixed := false, fixSvPosition := false,
    recompileVs := false, cacheShaders := false,
    overrideShaderModel := none, now := 0 }

/-- Witness for the claim-C1 theorem at the concrete environment `envC1`. -/
theorem cache_binary_accepted_iff_timestamp_equal_witness :
    envC1.replaceBin = some { content := [1, 2], time := 5 } ∧
    envC1.hlslTxt = some { content := [9], time := 6 } ∧
    (((load_cached_shader (some { content := [1, 2], time := 5 })
        (some (6 : Nat))).isSome ↔ (5 : Nat) = 6) ∧
      (∀ b2 : BinFile, load_cached_shader (some b2) none =
          some { code := b2.content, shaderModel := "bin", timeStamp := none }) ∧
      ((5 : Nat) ≠ 6 →
        (load_binary_shaders envC1).1 =
          load_cached_shader envC1.plainBin (envC1.asmTxt.map TxtFile.time))) :=
  ⟨rfl, rfl,
    cache_binary_accepted_iff_timestamp_equal envC1
      { content := [1, 2], time := 5 } { content := [9], time := 6 } rfl rfl⟩

/-- Claim C2: resolution attempts its candidate sources in the fixed order
cached `-replace` binary, plain cached binary, HLSL recompilation, ASM
reassembly, decompile-and-auto-patch, short-circuiting on the first success;
and when a valid cached binary exists the resolution returns that binary
unchanged and the HLSL compiler is never invoked. -/
theorem resolution_fixed_order_cached_binary_wins
    (env : ShaderFixesEnv) (tools : Tools) (orig : Bytes)
    (hp : env.shaderPathSet = true) (hc : env.shaderCachePathSet = true) :
    replaceShaderFromShaderFixesImpl env tools orig = firstStage (specCandidates env tools orig) ∧
    (∀ l : LoadedShader, (load_binary_shaders env).1 = some l →
      (replaceShaderFromShaderFixesImpl env tools orig).1 = some l ∧
      Ev.compileCall ∉ (replaceShaderFromShaderFixesImpl env tools orig).2) := by
  refine ⟨pipeline_eq_firstStage env tools orig hp hc, ?_⟩
  intro l hl
  have hpipe : replaceShaderFromShaderFixesImpl env tools orig = (some l, (load_binary_shaders env).2) := by
    unfold replaceShaderFromShaderFixesImpl
    rw [hp, hc]
    simp only [not_true_eq_false, false_or, if_false]
    rw [hl]
  rw [hpipe]
  refine ⟨rfl, ?_⟩
  unfold load_binary_shaders
  cases h1 : load_cached_shader env.replaceBin (env.hlslTxt.map TxtFile.time) <;> simp

/-- Witness for the claim-C2 theorem: trivial tool collaborators and an
environment identical to `envC1` except that the replace binary is valid. -/
def toolsTriv : Tools :=
  { getShaderModel := fun _ => "",
    compile := fun _ _ => none,
    disassemble := fun _ => [],
    decompile := fun _ _ => { code := [], patched := false, model := "", errorOccurred := true },
    assemble := fun _ _ => { ok := false, bytes := [], parseErrors := false } }

/-- Concrete environment with a valid (timestamp-matching) replace binary. -/
def envC2 : ShaderFixesEnv :=
  { envC1 with replaceBin := some { content := [1, 2], time := 6 } }

/-- Witness for the claim-C2 theorem at the concrete environment `envC2`. -/
theorem resolution_fixed_order_cached_binary_wins_witness :
    envC2.shaderPathSet = true ∧ envC2.shaderCachePathSet = true ∧
    (replaceShaderFromShaderFixesImpl envC2 toolsTriv [] =
        firstStage (specCandidates envC2 toolsTriv []) ∧
      (∀ l : LoadedShader, (load_binary_shaders envC2).1 = some l →
        (replaceShaderFromShaderFixesImpl envC2 toolsTriv []).1 = some l ∧
        Ev.compileCall ∉ (replaceShaderFromShaderFixesImpl envC2 toolsTriv []).2)) :=
  ⟨rfl, rfl, resolution_fixed_order_cached_binary_wins envC2 toolsTriv [] rfl rfl⟩

/-- Environment whose fingerprint is marked bad but which still carries a valid
cached replace binary (no paired text source, so it is accepted with a
warning); the auto-patch flags are on so the bad marker is what stops the
fourth stage. -/
def envC3 : ShaderFixesEnv :=
  { shaderPathSet := true, shaderCachePathSet := true,
    exportBinary := false, exportShaders := false,
    replaceBin := some { content := [7], time := 5 },
    hlslTxt := none, plainBin := none, asmTxt := none,
    badMarker := true, cacheReplaceTxt := false,
    exportHlsl := 1, exportFixed := false, fixSvPosition := false,
    recompileVs := false, cacheShaders := false,
    overrideShaderModel := none, now := 0 }

/-- Counterexample to claim C3 as stated: with the `_bad.txt` sentinel present
the pipeline is not short-circuited with no attempt - the cached-binary lookup
is still attempted and a substitute is still returned. -/
theorem bad_marker_does_not_short_circuit_whole_pipeline :
    envC3.badMarker = true ∧
    (replaceShaderFromShaderFixesImpl envC3 toolsTriv []).1 =
      some { code := [7], shaderModel := "bin", timeStamp := none } ∧
    Ev.binLookup ∈ (replaceShaderFromShaderFixesImpl envC3 toolsTriv []).2 := by
  refine ⟨rfl, ?_, ?_⟩ <;> decide

/-- Claim C3 (amended): the bad-fingerprint sentinel short-circuits only the
decompile-and-auto-patch stage - that stage makes no attempt (no decompiler or
compiler invocation) and returns no substitute - while the cached-binary, HLSL
and ASM candidates are still attempted in order. -/
theorem bad_marker_skips_decompile_stage
    (env : ShaderFixesEnv) (tools : Tools) (orig : Bytes)
    (hbad : env.badMarker = true) :
    decompile_and_possibly_patch_shader env tools orig = (none, []) ∧
    (env.shaderPathSet = true → env.shaderCachePathSet = true →
      replaceShaderFromShaderFixesImpl env tools orig =
        firstStage ((specCandidates env tools orig).take 4)) := by
  have hstage : decompile_and_possibly_patch_shader env tools orig = (none, []) := by
    unfold decompile_and_possibly_patch_shader
    rw [hbad]
    split <;> simp
  refine ⟨hstage, ?_⟩
  intro hp hc
  rw [pipeline_eq_firstStage env tools orig hp hc]
  have hsplit : specCandidates env tools orig =
      (specCandidates env tools orig).take 4 ++ [(none, [])] := by
    simp [specCandidates, hstage]
  conv_lhs => rw [hsplit]
  rw [firstStage_drop_trailing_none]

/-- Witness for the amended claim-C3 theorem at the concrete environment
`envC3`. -/
theorem bad_marker_skips_decompile_stage_witness :
    envC3.badMarker = true ∧
    (decompile_and_possibly_patch_shader envC3 toolsTriv [] = (none, []) ∧
      (envC3.shaderPathSet = true → envC3.shaderCachePathSet = true →
        replaceShaderFromShaderFixesImpl envC3 toolsTriv [] =
          firstStage ((specCandidates envC3 toolsTriv []).take 4))) :=
  ⟨rfl, bad_marker_skips_decompile_stage envC3 toolsTriv [] rfl⟩

/-! ## Hunting configuration and the retention decision -/

/-- `MarkingMode` (the diagnostic display mode for a hunted shader). -/
inductive MarkingMode where
  | skip | original | pink | mono
  deriving Repr, DecidableEq

/-- `DepthBufferFilter` of a `[ShaderOverride]` section. -/
inductive DepthBufferFilter where
  | invalid | noFilter | depthActive | depthInactive
  deriving Repr, DecidableEq

/-- The global hunting/diagnostic configuration read by the retention and
registry code: `hunting_enabled()`, `G->marking_mode`, `G->config_reloadable`,
`G->show_original_enabled`, and whether any shader-regex groups exist. -/
structure HuntingCfg where
  huntingEnabled : Bool
  markingMode : MarkingMode
  configReloadable : Bool
  showOriginalEnabled : Bool
  shaderRegexActive : Bool   -- !shader_regex_groups.empty()
  deriving Repr, DecidableEq

/-- The fields of a `[ShaderOverride]` section consulted by
`NeedOriginalShader`: the depth-buffer filter and the partner hash (0 = no
partner declared). -/
structure ShaderOverrideRec where
  depthFilter : DepthBufferFilter
  partnerHash : Nat
  deriving Repr, DecidableEq

/-- `HackerDevice::NeedOriginalShader` (HackerDevice.cpp:1494).  `ov` is the
result of `lookup_shaderoverride(hash)` (`none` = not found). -/
def NeedOriginalShader (cfg : HuntingCfg) (ov : Option ShaderOverrideRec) : Bool :=
  if cfg.huntingEnabled ∧
      (cfg.markingMode = MarkingMode.original ∨ cfg.configReloadable ∨ cfg.showOriginalEnabled) then
    true
  else
    match ov with
    | none => false
    | some so =>
      if so.depthFilter = DepthBufferFilter.depthActive ∨
          so.depthFilter = DepthBufferFilter.depthInactive then true
      else if so.partnerHash ≠ 0 then true
      else false

/-- The retention decision exactly as claim C8 words it: diagnostic mode
requests "original" display, or configuration reload support is enabled, or an
override rule declares a depth-buffer filter, or an override rule declares a
partner fingerprint. -/
def needsOriginalClaim (cfg : HuntingCfg) (ov : Option ShaderOverrideRec) : Bool :=
  (cfg.huntingEnabled && decide (cfg.markingMode = MarkingMode.original)) ||
  cfg.configReloadable ||
  (match ov with
   | none => false
   | some so =>
     decide (so.depthFilter = DepthBufferFilter.depthActive) ||
     decide (so.depthFilter = DepthBufferFilter.depthInactive) ||
     decide (so.partnerHash ≠ 0))

/-- Counterexample to claim C8 as stated: with hunting disabled but
configuration reload enabled and no override rule, the code returns false while
the claimed condition ("or configuration reload support is enabled") is true. -/
theorem retention_decision_counterexample :
    NeedOriginalShader
        { huntingEnabled := false, markingMode := MarkingMode.skip,
          configReloadable := true, showOriginalEnabled := false,
          shaderRegexActive := false } none = false ∧
    needsOriginalClaim
        { huntingEnabled := false, markingMode := MarkingMode.skip,
          configReloadable := true, showOriginalEnabled := false,
          shaderRegexActive := false } none = true := by
  decide

/-- Claim C8 (amended): the retention decision returns true exactly when
hunting (diagnostic) mode is enabled and the marking mode is "original" or
configuration reload support is enabled or show-original is enabled, or an
override rule for this fingerprint declares a depth-buffer active/inactive
filter or a nonzero partner fingerprint; and false otherwise. -/
theorem retention_decision_characterisation (cfg : HuntingCfg) (ov : Option ShaderOverrideRec) :
    NeedOriginalShader cfg ov = true ↔
      ((cfg.huntingEnabled = true ∧
          (cfg.markingMode = MarkingMode.original ∨ cfg.configReloadable = true ∨
            cfg.showOriginalEnabled = true)) ∨
        (∃ so : ShaderOverrideRec, ov = some so ∧
          (so.depthFilter = DepthBufferFilter.depthActive ∨
            so.depthFilter = DepthBufferFilter.depthInactive ∨ so.partnerHash ≠ 0))) := by
  unfold NeedOriginalShader
  by_cases hcond : cfg.huntingEnabled ∧
      (cfg.markingMode = MarkingMode.original ∨ cfg.configReloadable ∨ cfg.showOriginalEnabled)
  · rw [if_pos hcond]
    constructor
    · intro _
      exact Or.inl ⟨by simpa using hcond.1, by simpa using hcond.2⟩
    · intro _; rfl
  · rw [if_neg hcond]
    cases ov with
    | none =>
      constructor
      · intro h; simp at h
      · rintro (⟨h1, h2⟩ | ⟨so, hso, _⟩)
        · exact absurd ⟨by simpa using h1, by simpa using h2⟩ hcond
        · simp at hso
    | some so =>
      dsimp only
      by_cases hdep : so.depthFilter = DepthBufferFilter.depthActive ∨
          so.depthFilter = DepthBufferFilter.depthInactive
      · rw [if_pos hdep]
        constructor
        · intro _
          exact Or.inr ⟨so, rfl, by tauto⟩
        · intro _; rfl
      · rw [if_neg hdep]
        by_cases hph : so.partnerHash ≠ 0
        · rw [if_pos hph]
          constructor
          · intro _
            exact Or.inr ⟨so, rfl, Or.inr (Or.inr hph)⟩
          · intro _; rfl
        · rw [if_neg hph]
          constructor
          · intro h; simp at h
          · rintro (⟨h1, h2⟩ | ⟨so2, hso2, hcase⟩)
            · exact absurd ⟨by simpa using h1, by simpa using h2⟩ hcond
            · cases hso2
              rcases hcase with h | h | h
              · exact absurd (Or.inl h) hdep
              · exact absurd (Or.inr h) hdep
              · exact absurd h hph

/-! ## Shader-handle bookkeeping tables and the creation paths -/

/-- Live shader handles and COM references, as abstract identifiers.  Handle 0
models a null pointer. -/
abbrev Handle := Nat

/-- An owned COM reference (blob, linkage, shader object), as an identifier. -/
abbrev Ref := Nat

/-- The per-handle reload record (`original_shader_info`), with the fields the
code reads or writes through `register_for_reload` and `cleanup_shader_maps`.
The `replacement`, `byteCode` and `linkage` references are owned and must be
released on eviction.  The `shaderType` tag and `infoText` line
(HackerDevice.cpp:609,615) are log-only wide strings never read by the logic
modelled here and are left out. -/
structure ReloadEntry where
  hash : Nat
  shaderModel : String
  replacement : Option Ref
  byteCode : Option Ref
  linkage : Option Ref
  timeStamp : Option Nat
  deferredReplacementCandidate : Bool
  deferredReplacementProcessed : Bool
  deriving Repr, DecidableEq

/-- The shared global tables guarded by `G->mCriticalSection`, plus a log of
released references and a fresh-reference counter for blob allocation.
Association lists model the three `std::unordered_map`s keyed by handle. -/
structure GState where
  mShaders : List (Handle × Nat)              -- fingerprint by handle
  mReloadedShaders : List (Handle × ReloadEntry)
  mOriginalShaders : List (Handle × Ref)      -- retained original object by handle
  released : List Ref
  nextRef : Ref
  deriving Repr, DecidableEq

/-- Erase every entry with the given key (an `unordered_map::erase`). -/
def mapErase {α : Type} (h : Handle) (l : List (Handle × α)) : List (Handle × α) :=
  l.filter (fun p => p.1 != h)

/-- Insert-or-overwrite for the handle-keyed maps (`operator[]` assignment). -/
def mapInsert {α : Type} (h : Handle) (v : α) (l : List (Handle × α)) : List (Handle × α) :=
  (h, v) :: mapErase h l

/-- The owned references of a reload record, in the order
`cleanup_shader_maps` releases them. -/
def reloadEntryRefs (e : ReloadEntry) : List Ref :=
  e.replacement.toList ++ e.byteCode.toList ++ e.linkage.toList

/-- The references `cleanup_shader_maps` releases for a handle: the reload
record's owned references, then the retained original object. -/
def cleanupReleases (s : GState) (h : Handle) : List Ref :=
  (match List.lookup h s.mReloadedShaders with
   | some e => reloadEntryRefs e
   | none => []) ++
  (match List.lookup h s.mOriginalShaders with
   | some r => [r]
   | none => [])

/-- `cleanup_shader_maps` (HackerDevice.cpp:1536): expunge a (non-null) handle
from all three shader maps, releasing the owned references of the evicted
entries before removal. -/
def cleanup_shader_maps (h : Handle) (s : GState) : GState :=
  if h = 0 then s
  else
    { s with
      mShaders := mapErase h s.mShaders,
      mReloadedShaders := mapErase h s.mReloadedShaders,
      mOriginalShaders := mapErase h s.mOriginalShaders,
      released := s.released ++ cleanupReleases s h }

/-- `register_for_reload` (HackerDevice.cpp:589): insert-or-overwrite the
reload record keyed by the live handle, assigning every field: the
fingerprint, the declared model, the class linkage (AddRef'd by the source
before storing, so the stored reference is owned), the original bytecode blob
(owned), the source timestamp and the deferred-replacement-candidate flag;
`replacement` is reset to null (line 614) and the deferred-processed flag to
false (line 617).  The shader-type and info-text string arguments fill the
log-only fields omitted from `ReloadEntry`. -/
def register_for_reload (h : Handle) (hash : Nat) (shaderModel : String)
    (linkage : Option Ref) (blob : Option Ref) (timeStamp : Option Nat)
    (deferred : Bool) (s : GState) : GState :=
  let e : ReloadEntry :=
    { hash := hash, shaderModel := shaderModel, replacement := none,
      byteCode := blob, linkage := linkage, timeStamp := timeStamp,
      deferredReplacementCandidate := deferred,
      deferredReplacementProcessed := false }
  { s with mReloadedShaders := mapInsert h e s.mReloadedShaders }

/-- `D3DCreateBlob`, modelled as an always-succeeding fresh allocation. -/
def mkBlob (s : GState) : Ref × GState :=
  (s.nextRef, { s with nextRef := s.nextRef + 1 })

/-- The real `ID3D11Device`, as an opaque deterministic collaborator: `create`
takes the bytecode (possibly null) and whether the out-pointer was provided,
and returns the created handle, or `none` for a failed HRESULT. -/
structure OrigDevice where
  create : Option Bytes → Bool → Option Handle

/-- Result of one of the two shader-creation paths: the created handle (`none`
= failed HRESULT), the updated tables, and the bytecodes passed to the real
device's creation entry point, in call order. -/
structure PathResult where
  handle : Option Handle
  state : GState
  createCalls : List (Option Bytes)

/-- `HackerDevice::KeepOriginalShader` (HackerDevice.cpp:1591): when the
retention policy requires the original, perform a second, independent creation
against the original bytecode purely to retain the resulting object; the
caller-visible object stays the substitute.  On creation failure the null
handle is cleaned (a no-op) and nothing is stored. -/
def KeepOriginalShader (dev : OrigDevice) (cfg : HuntingCfg) (ov : Option ShaderOverrideRec)
    (orig : Bytes) (shader : Handle) (s : GState) : GState × List (Option Bytes) :=
  if ¬ NeedOriginalShader cfg ov then (s, [])
  else
    match dev.create (some orig) true with
    | some oh =>
      let s1 := cleanup_shader_maps oh s
      ({ s1 with mOriginalShaders := mapInsert shader oh s1.mOriginalShaders }, [some orig])
    | none => (cleanup_shader_maps 0 s, [some orig])

/-- `HackerDevice::ReplaceShaderFromShaderFixes` (HackerDevice.cpp:1352): run
the resolution pipeline; on success create the substitute through the real
device, evict stale bookkeeping for the returned handle, register a reload
record when hunting (capturing the original bytecode blob), and retain the
original when required.  `ov` is the `[ShaderOverride]` entry for this hash
(`env.overrideShaderModel` is its model field). -/
def ReplaceShaderFromShaderFixes (env : ShaderFixesEnv) (tools : Tools) (dev : OrigDevice)
    (cfg : HuntingCfg) (ov : Option ShaderOverrideRec) (hash : Nat) (orig : Bytes)
    (linkage : Option Ref) (s : GState) : PathResult :=
  match (replaceShaderFromShaderFixesImpl env tools orig).1 with
  | none => { handle := none, state := s, createCalls := [] }
  | some l =>
    match dev.create (some l.code) true with
    | none => { handle := none, state := s, createCalls := [some l.code] }
    | some h =>
      let s1 := cleanup_shader_maps h s
      let s2 :=
        if cfg.huntingEnabled then
          let b := mkBlob s1
          register_for_reload h hash l.shaderModel linkage (some b.1) l.timeStamp false b.2
        else s1
      let k := KeepOriginalShader dev cfg ov orig h s2
      { handle := some h, state := k.1, createCalls := some l.code :: k.2 }

/-- `HackerDevice::ProcessShaderNotFoundInShaderFixes` (HackerDevice.cpp:1441):
create with the original bytecode; on success evict stale bookkeeping for the
handle and, when hunting or a deferred-analysis consumer (shader regex)
exists, register a deferred-candidate reload record with a copy of the
original bytecode and store the shader as its own retained original (with an
extra reference). -/
def ProcessShaderNotFoundInShaderFixes (dev : OrigDevice) (cfg : HuntingCfg)
    (hash : Nat) (orig : Bytes) (linkage : Option Ref) (s : GState) : PathResult :=
  match dev.create (some orig) true with
  | none => { handle := none, state := s, createCalls := [some orig] }
  | some h =>
    let s1 := cleanup_shader_maps h s
    let s2 :=
      if cfg.huntingEnabled || cfg.shaderRegexActive then
        let b := mkBlob s1
        let s2a := register_for_reload h hash "bin" linkage (some b.1) none true b.2
        if (List.lookup h s2a.mOriginalShaders).isNone then
          { s2a with mOriginalShaders := mapInsert h h s2a.mOriginalShaders }
        else s2a
      else s1
    { handle := some h, state := s2, createCalls := [some orig] }

/-- Arguments of a `CreateXXXShader` call: the bytecode pointer, whether the
output shader pointer was provided, and the class-linkage reference. -/
structure CreateShaderInput where
  bytecode : Option Bytes
  shaderOutProvided : Bool
  linkage : Option Ref

/-- Outcome of `HackerDevice::CreateShader`: the returned handle (`none` = a
failed HRESULT), the final tables, the creation calls forwarded to the real
device, the computed fingerprint (`none` = never computed) and the resolution
pipeline's events (`[]` = resolution never attempted). -/
structure CreateOutcome where
  handle : Option Handle
  state : GState
  createCalls : List (Option Bytes)
  fingerprint : Option Nat
  resolveEvents : List Ev

/-- `HackerDevice::CreateShader` (HackerDevice.cpp:2642), the template shared
by every shader stage: null output pointer or null bytecode is forwarded
untouched to the real device; otherwise the fingerprint is computed, the
replacement path is tried, failures fall back to the not-found path, and on
success the fingerprint table records the new handle.  `hashFn` is the
fingerprint engine (`hash_shader` with its configured mode). -/
def CreateShader (env : ShaderFixesEnv) (tools : Tools) (dev : OrigDevice) (cfg : HuntingCfg)
    (ov : Option ShaderOverrideRec) (hashFn : Bytes → Nat)
    (input : CreateShaderInput) (s : GState) : CreateOutcome :=
  match input.bytecode, input.shaderOutProvided with
  | some bytes, true =>
    let hash := hashFn bytes
    let r := ReplaceShaderFromShaderFixes env tools dev cfg ov hash bytes input.linkage s
    let evs := (replaceShaderFromShaderFixesImpl env tools bytes).2
    match r.handle with
    | some h =>
      { handle := some h,
        state := { r.state with mShaders := mapInsert h hash r.state.mShaders },
        createCalls := r.createCalls, fingerprint := some hash, resolveEvents := evs }
    | none =>
      let p := ProcessShaderNotFoundInShaderFixes dev cfg hash bytes input.linkage r.state
      match p.handle with
      | some h =>
        { handle := some h,
          state := { p.state with mShaders := mapInsert h hash p.state.mShaders },
          createCalls := r.createCalls ++ p.createCalls,
          fingerprint := some hash, resolveEvents := evs }
      | none =>
        { handle := none, state := p.state,
          createCalls := r.createCalls ++ p.createCalls,
          fingerprint := some hash, resolveEvents := evs }
  | bc, provided =>
    { handle := dev.create bc provided, state := s, createCalls := [bc],
      fingerprint := none, resolveEvents := [] }

/-- Helper: erasing a key removes every binding for it. -/
theorem lookup_mapErase {α : Type} (h : Handle) (l : List (Handle × α)) :
    List.lookup h (mapErase h l) = none := by
  induction l with
  | nil => rfl
  | cons p t ih =>
    rcases p with ⟨k, v⟩
    by_cases hk : k = h
    · simp only [mapErase, List.filter_cons] at ih ⊢
      rw [if_neg (by simp [hk])]
      exact ih
    · simp only [mapErase, List.filter_cons] at ih ⊢
      rw [if_pos (by simp [hk]), List.lookup_cons,
        show (h == k) = false by simp [Ne.symm hk]]
      exact ih

/-- Helper: no pair keyed by the erased key remains after `mapErase`. -/
theorem not_mem_mapErase {α : Type} (h : Handle) (v : α) (l : List (Handle × α)) :
    (h, v) ∉ mapErase h l := by
  intro hm
  have := List.of_mem_filter hm
  simp at this

/-- Claim C5: on a successful creation the returned handle is evicted from all
three tables before new bookkeeping is inserted: after
`cleanup_shader_maps` no residual entry for the handle remains in the
fingerprint-by-handle, reload-record-by-handle or retained-original-by-handle
table, and the owned references of the evicted entries (replacement, original
bytecode blob, class linkage, retained original object) are all released; in
the full not-found creation path the stale releases happen and the only reload
entry left for the handle is the freshly registered one. -/
theorem cleanup_evicts_handle_from_all_tables (s : GState) (h : Handle) (hh : h ≠ 0) :
    List.lookup h (cleanup_shader_maps h s).mShaders = none ∧
    List.lookup h (cleanup_shader_maps h s).mReloadedShaders = none ∧
    List.lookup h (cleanup_shader_maps h s).mOriginalShaders = none ∧
    (cleanup_shader_maps h s).released = s.released ++ cleanupReleases s h ∧
    (∀ (dev : OrigDevice) (cfg : HuntingCfg) (hash : Nat) (orig : Bytes) (linkage : Option Ref),
      dev.create (some orig) true = some h →
      (ProcessShaderNotFoundInShaderFixes dev cfg hash orig linkage s).state.released =
          s.released ++ cleanupReleases s h ∧
      (∀ e : ReloadEntry,
        (h, e) ∈ (ProcessShaderNotFoundInShaderFixes dev cfg hash orig linkage s).state.mReloadedShaders →
        e = { hash := hash, shaderModel := "bin", replacement := none,
              byteCode := some s.nextRef, linkage := linkage, timeStamp := none,
              deferredReplacementCandidate := true,
              deferredReplacementProcessed := false })) := by
  have hclean : cleanup_shader_maps h s =
      { s with
        mShaders := mapErase h s.mShaders,
        mReloadedShaders := mapErase h s.mReloadedShaders,
        mOriginalShaders := mapErase h s.mOriginalShaders,
        released := s.released ++ cleanupReleases s h } := by
    unfold cleanup_shader_maps
    rw [if_neg hh]
  refine ⟨by rw [hclean]; exact lookup_mapErase h s.mShaders,
    by rw [hclean]; exact lookup_mapErase h s.mReloadedShaders,
    by rw [hclean]; exact lookup_mapErase h s.mOriginalShaders,
    by rw [hclean], ?_⟩
  intro dev cfg hash orig linkage hcreate
  unfold ProcessShaderNotFoundInShaderFixes
  rw [hcreate]
  simp only [hclean]
  by_cases hreg : (cfg.huntingEnabled || cfg.shaderRegexActive) = true
  · rw [if_pos hreg]
    simp only [mkBlob, register_for_reload]
    have hlook : (List.lookup h (mapErase h s.mOriginalShaders)).isNone = true := by
      rw [lookup_mapErase]; rfl
    rw [if_pos hlook]
    refine ⟨rfl, ?_⟩
    intro e hmem
    simp only [mapInsert] at hmem
    rcases List.mem_cons.mp hmem with heq | htail
    · exact (Prod.mk.injEq _ _ _ _).mp heq |>.2
    · exact absurd htail (not_mem_mapErase h e _)
  · rw [if_neg hreg]
    refine ⟨rfl, ?_⟩
    intro e hmem
    exact absurd hmem (not_mem_mapErase h e _)

/-- Concrete stale state for the claim-C5 witness: handle 5 has stale entries
in all three tables, owning references 11 (replacement), 12 (bytecode blob),
13 (linkage) and 9 (retained original). -/
def gsStale : GState :=
  { mShaders := [(5, 77)],
    mReloadedShaders :=
      [(5, { hash := 77, shaderModel := "ps_5_0", replacement := some 11,
             byteCode := some 12, linkage := some 13, timeStamp := some 3,
             deferredReplacementCandidate := false,
             deferredReplacementProcessed := false })],
    mOriginalShaders := [(5, 9)],
    released := [], nextRef := 100 }

/-- Witness for the claim-C5 theorem at the concrete state `gsStale` and
handle 5. -/
theorem cleanup_evicts_handle_from_all_tables_witness :
    (5 : Handle) ≠ 0 ∧
    (List.lookup 5 (cleanup_shader_maps 5 gsStale).mShaders = none ∧
      List.lookup 5 (cleanup_shader_maps 5 gsStale).mReloadedShaders = none ∧
      List.lookup 5 (cleanup_shader_maps 5 gsStale).mOriginalShaders = none ∧
      (cleanup_shader_maps 5 gsStale).released = gsStale.released ++ cleanupReleases gsStale 5 ∧
      (∀ (dev : OrigDevice) (cfg : HuntingCfg) (hash : Nat) (orig : Bytes) (linkage : Option Ref),
        dev.create (some orig) true = some 5 →
        (ProcessShaderNotFoundInShaderFixes dev cfg hash orig linkage gsStale).state.released =
            gsStale.released ++ cleanupReleases gsStale 5 ∧
        (∀ e : ReloadEntry,
          (5, e) ∈ (ProcessShaderNotFoundInShaderFixes dev cfg hash orig linkage gsStale).state.mReloadedShaders →
          e = { hash := hash, shaderModel := "bin", replacement := none,
                byteCode := some gsStale.nextRef, linkage := linkage, timeStamp := none,
                deferredReplacementCandidate := true,
                deferredReplacementProcessed := false }))) :=
  ⟨by decide, cleanup_evicts_handle_from_all_tables gsStale 5 (by decide)⟩

/-- Claim C4: when replacement resolution finds no substitute, or installing
the substitute fails, no error is surfaced: the real creation proceeds with the
original, unmodified bytecode (it is the last bytecode handed to the real
device) and the result of that original creation is what the caller gets. -/
theorem no_substitute_falls_back_to_original
    (env : ShaderFixesEnv) (tools : Tools) (dev : OrigDevice) (cfg : HuntingCfg)
    (ov : Option ShaderOverrideRec) (hashFn : Bytes → Nat)
    (bytes : Bytes) (linkage : Option Ref) (s : GState)
    (hfail : (replaceShaderFromShaderFixesImpl env tools bytes).1 = none ∨
      ∃ l : LoadedShader, (replaceShaderFromShaderFixesImpl env tools bytes).1 = some l ∧
        dev.create (some l.code) true = none) :
    (CreateShader env tools dev cfg ov hashFn
        { bytecode := some bytes, shaderOutProvided := true, linkage := linkage } s).handle =
      dev.create (some bytes) true ∧
    (CreateShader env tools dev cfg ov hashFn
        { bytecode := some bytes, shaderOutProvided := true, linkage := linkage } s).createCalls.getLast? =
      some (some bytes) := by
  have hrep : ReplaceShaderFromShaderFixes env tools dev cfg ov (hashFn bytes) bytes linkage s =
      { handle := none, state := s,
        createCalls :=
          match (replaceShaderFromShaderFixesImpl env tools bytes).1 with
          | none => []
          | some l => [some l.code] } := by
    rcases hfail with hnone | ⟨l, hl, hcre⟩
    · unfold ReplaceShaderFromShaderFixes
      rw [hnone]
    · unfold ReplaceShaderFromShaderFixes
      rw [hl]
      dsimp only
      rw [hcre]
  unfold CreateShader
  dsimp only
  rw [hrep]
  dsimp only
  cases hc : dev.create (some bytes) true with
  | some h =>
    simp only [ProcessShaderNotFoundInShaderFixes, hc]
    exact ⟨trivial, List.getLast?_concat _⟩
  | none =>
    simp only [ProcessShaderNotFoundInShaderFixes, hc]
    exact ⟨trivial, List.getLast?_concat _⟩

/-- Environment with no cache or source files at all and export flags off. -/
def envEmpty : ShaderFixesEnv :=
  { shaderPathSet := true, shaderCachePathSet := true,
    exportBinary := false, exportShaders := false,
    replaceBin := none, hlslTxt := none, plainBin := none, asmTxt := none,
    badMarker := false, cacheReplaceTxt := false,
    exportHlsl := 0, exportFixed := false, fixSvPosition := false,
    recompileVs := false, cacheShaders := false,
    overrideShaderModel := none, now := 0 }

/-- A real device that always succeeds, returning handle 42. -/
def devOk : OrigDevice := { create := fun _ _ => some 42 }

/-- Quiet hunting configuration (all diagnostic features off). -/
def cfgOff : HuntingCfg :=
  { huntingEnabled := false, markingMode := MarkingMode.skip,
    configReloadable := false, showOriginalEnabled := false,
    shaderRegexActive := false }

/-- Witness for the claim-C4 theorem: no cache files present, so resolution
returns none and the original bytecode is created. -/
theorem no_substitute_falls_back_to_original_witness :
    ((replaceShaderFromShaderFixesImpl envEmpty toolsTriv [1]).1 = none ∨
      ∃ l : LoadedShader, (replaceShaderFromShaderFixesImpl envEmpty toolsTriv [1]).1 = some l ∧
        devOk.create (some l.code) true = none) ∧
    ((CreateShader envEmpty toolsTriv devOk cfgOff none (fun _ => 0xABCD)
        { bytecode := some [1], shaderOutProvided := true, linkage := none } gsStale).handle =
      devOk.create (some [1]) true ∧
    (CreateShader envEmpty toolsTriv devOk cfgOff none (fun _ => 0xABCD)
        { bytecode := some [1], shaderOutProvided := true, linkage := none } gsStale).createCalls.getLast? =
      some (some [1])) :=
  ⟨Or.inl (by decide),
    no_substitute_falls_back_to_original envEmpty toolsTriv devOk cfgOff none
      (fun _ => 0xABCD) [1] none gsStale (Or.inl (by decide))⟩

/-- Claim C10: a shader creation call with a null output pointer or null
bytecode is forwarded unmodified to the real device: no fingerprint is
computed, no resolution is attempted, no table is touched, and the real
device's result is returned as-is. -/
theorem null_args_forwarded_unmodified
    (env : ShaderFixesEnv) (tools : Tools) (dev : OrigDevice) (cfg : HuntingCfg)
    (ov : Option ShaderOverrideRec) (hashFn : Bytes → Nat)
    (input : CreateShaderInput) (s : GState)
    (hnull : input.shaderOutProvided = false ∨ input.bytecode = none) :
    CreateShader env tools dev cfg ov hashFn input s =
      { handle := dev.create input.bytecode input.shaderOutProvided, state := s,
        createCalls := [input.bytecode], fingerprint := none, resolveEvents := [] } := by
  rcases input with ⟨bc, provided, linkage⟩
  rcases hnull with hp | hb
  · cases hp
    cases bc <;> rfl
  · cases hb
    cases provided <;> rfl

/-- Witness for the claim-C10 theorem: null bytecode is forwarded as-is. -/
theorem null_args_forwarded_unmodified_witness :
    (({ bytecode := none, shaderOutProvided := true, linkage := none } :
        CreateShaderInput).shaderOutProvided = false ∨
      ({ bytecode := none, shaderOutProvided := true, linkage := none } :
        CreateShaderInput).bytecode = none) ∧
    CreateShader envEmpty toolsTriv devOk cfgOff none (fun _ => 0xABCD)
        { bytecode := none, shaderOutProvided := true, linkage := none } gsStale =
      { handle := devOk.create none true, state := gsStale,
        createCalls := [none], fingerprint := none, resolveEvents := [] } :=
  ⟨Or.inr rfl,
    null_args_forwarded_unmodified envEmpty toolsTriv devOk cfgOff none (fun _ => 0xABCD)
      { bytecode := none, shaderOutProvided := true, linkage := none } gsStale (Or.inr rfl)⟩

/-! ## Resource override matching and the stereo surface-creation mode scope -/

/-- A `[TextureOverride]` rule as read by `process_texture_override`:
`iterations[0]` is the running counter and the tail the configured iteration
values (the source increments element 0 and tests membership from element 1
on); `-1` marks an unset format/width/height/stereo-mode and a multiplier of
`1` is a no-op.  The C++ `float` multipliers are modelled as rationals. -/
structure TexOverride where
  iterations : List Int
  format : Int
  width : Int
  widthMultiply : ℚ
  height : Int
  heightMultiply : ℚ
  stereoMode : Int
  deriving Repr, DecidableEq

/-- `check_texture_override_iteration` (HackerDevice.cpp:2015): an empty
iteration list always passes; otherwise the counter in element 0 is
incremented and the gate passes exactly when the incremented count occurs
among the remaining elements. -/
def check_texture_override_iteration (t : TexOverride) : Bool × TexOverride :=
  match t.iterations with
  | [] => (true, t)
  | c :: rest =>
    let cur := c + 1
    (rest.contains cur, { t with iterations := cur :: rest })

/-- The counter-updating half of the iteration gate. -/
def gateStep (t : TexOverride) : TexOverride :=
  (check_texture_override_iteration t).2

/-- `D3D11_TEXTURE2D_DESC`, restricted to the fields this code reads or
writes.  `Usage` carries the numeric `D3D11_USAGE` value: 0 = DEFAULT,
1 = IMMUTABLE, 2 = DYNAMIC, 3 = STAGING. -/
structure Texture2DDesc where
  Width : Nat
  Height : Nat
  Format : Int
  Usage : Nat
  deriving Repr, DecidableEq

/-- `D3D11_BUFFER_DESC`, restricted likewise (no field is overridden). -/
structure BufferDesc where
  ByteWidth : Nat
  Usage : Nat
  deriving Repr, DecidableEq

/-- The globals consulted by the square-surface heuristic. -/
structure StereoCfg where
  gSurfaceSquareCreateMode : Int
  deriving Repr, DecidableEq

/-- `is_square_surface` for `D3D11_TEXTURE2D_DESC` (HackerDevice.cpp:2044):
non-null, mode configured, square, and `(Usage & D3D11_USAGE_IMMUTABLE) == 0`
- note the source uses a bitwise AND with IMMUTABLE = 1. -/
def is_square_surface2D (g : StereoCfg) (desc : Option Texture2DDesc) : Bool :=
  match desc with
  | some d =>
    decide (0 ≤ g.gSurfaceSquareCreateMode) && (d.Width == d.Height) && ((d.Usage &&& 1) == 0)
  | none => false

/-- `override_resource_desc_common_2d_3d` (HackerDevice.cpp:2059) specialised
to 2D descriptions; the `UINT` cast of the float product is modelled as the
floor of the rational product. -/
def override_resource_desc2D (d : Texture2DDesc) (t : TexOverride) : Texture2DDesc :=
  let d1 := if t.format ≠ -1 then { d with Format := t.format } else d
  let d2 := if t.width ≠ -1 then { d1 with Width := t.width.toNat } else d1
  let d3 :=
    if t.widthMultiply ≠ 1 then
      { d2 with Width := (((d2.Width : ℚ) * t.widthMultiply).floor).toNat }
    else d2
  let d4 := if t.height ≠ -1 then { d3 with Height := t.height.toNat } else d3
  if t.heightMultiply ≠ 1 then
    { d4 with Height := (((d4.Height : ℚ) * t.heightMultiply).floor).toNat }
  else d4

/-- The per-match loop of `process_texture_override` (HackerDevice.cpp:2152),
generic over the description type like the C++ template (`overrideDesc` is the
overloaded `override_resource_desc`): each matching rule's gate is checked
(always updating its counter); a passing rule records its stereo mode (last
writer wins) and mutates the working description.  Returns the final
description, the final pending mode and the rules with updated counters. -/
def apply_matches {DescType : Type} (overrideDesc : DescType → TexOverride → DescType)
    (d : DescType) (m : Int) : List TexOverride → DescType × Int × List TexOverride
  | [] => (d, m, [])
  | t :: rest =>
    let g := check_texture_override_iteration t
    if g.1 then
      let m2 := if g.2.stereoMode ≠ -1 then g.2.stereoMode else m
      let d2 := overrideDesc d g.2
      let r := apply_matches overrideDesc d2 m2 rest
      (r.1, r.2.1, g.2 :: r.2.2)
    else
      let r := apply_matches overrideDesc d m rest
      (r.1, r.2.1, g.2 :: r.2.2)

/-- The pure part of `process_texture_override` (HackerDevice.cpp:2115),
generic over the description type: the square-surface default is taken first
(so explicit rules can override it), then all matching rules are applied when
the description is non-null.  Returns the effective description, the pending
stereo mode (`-1` = none) and the updated rules.  `ms` is the output of
the external `find_texture_overrides` collaborator, in ascending priority
order. -/
def override_core {DescType : Type} (isSquare : Option DescType → Bool) (squareMode : Int)
    (overrideDesc : DescType → TexOverride → DescType)
    (ms : List TexOverride) (origDesc : Option DescType) :
    Option DescType × Int × List TexOverride :=
  let newMode0 : Int := if isSquare origDesc then squareMode else -1
  match origDesc with
  | some od =>
    if ms.isEmpty then (origDesc, newMode0, ms)
    else
      let r := apply_matches overrideDesc od newMode0 ms
      (some r.1, r.2.1, r.2.2)
  | none => (origDesc, newMode0, ms)

/-- `process_texture_override` instantiated at `D3D11_TEXTURE2D_DESC`. -/
def override_core2D (g : StereoCfg) (ms : List TexOverride)
    (origDesc : Option Texture2DDesc) : Option Texture2DDesc × Int × List TexOverride :=
  override_core (is_square_surface2D g) g.gSurfaceSquareCreateMode override_resource_desc2D
    ms origDesc

/-- `process_texture_override` instantiated at `D3D11_BUFFER_DESC`: the
`is_square_surface` template specialisation (HackerDevice.cpp:2039) is
constantly false and `override_resource_desc` for buffers is a no-op. -/
def override_coreBuffer (g : StereoCfg) (ms : List TexOverride)
    (origDesc : Option BufferDesc) : Option BufferDesc × Int × List TexOverride :=
  override_core (fun _ => false) g.gSurfaceSquareCreateMode (fun d _ => d) ms origDesc

/-- The process-global NVAPI stereo driver state and the
resource-creation-mode lock (`LOCK_RESOURCE_CREATION_MODE`). -/
structure StereoState where
  mode : Int
  lockDepth : Nat
  deriving Repr, DecidableEq

/-- Observable driver/lock events around a resource creation. -/
inductive MEv where
  | lock : MEv
  | unlock : MEv
  | getMode : Int → MEv
  | setMode : Int → MEv
  | create : Bool → MEv
  deriving Repr, DecidableEq

/-- Result of `process_texture_override` including its driver effects. -/
structure OverrideOutcome where
  desc : Option Texture2DDesc
  oldMode : Int
  rules : List TexOverride
  state : StereoState
  trace : List MEv
  deriving Repr, DecidableEq

/-- `process_texture_override` at 2D including its tail (HackerDevice.cpp:2173):
the resource-creation-mode lock is taken unconditionally; when a mode change is
pending the current mode is saved into the out-parameter (initialised to `-1`)
and the new mode is set while holding the lock. -/
def process_texture_override2D (g : StereoCfg) (ms : List TexOverride)
    (origDesc : Option Texture2DDesc) (st : StereoState) : OverrideOutcome :=
  let a := override_core2D g ms origDesc
  let st1 : StereoState := { st with lockDepth := st.lockDepth + 1 }
  if a.2.1 ≠ -1 then
    { desc := a.1, oldMode := st1.mode, rules := a.2.2,
      state := { st1 with mode := a.2.1 },
      trace := [MEv.lock, MEv.getMode st1.mode, MEv.setMode a.2.1] }
  else
    { desc := a.1, oldMode := -1, rules := a.2.2, state := st1, trace := [MEv.lock] }

/-- `restore_old_surface_create_mode` (HackerDevice.cpp:2188): restore the
saved mode when one was saved, then release the resource-creation-mode lock. -/
def restore_old_surface_create_mode (oldMode : Int) (st : StereoState) :
    StereoState × List MEv :=
  if oldMode ≠ -1 then
    ({ mode := oldMode, lockDepth := st.lockDepth - 1 }, [MEv.setMode oldMode, MEv.unlock])
  else
    ({ st with lockDepth := st.lockDepth - 1 }, [MEv.unlock])

/-- Result of the creation-mode scope of `HackerDevice::CreateTexture2D`. -/
structure Texture2DOutcome where
  ok : Bool
  rules : List TexOverride
  state : StereoState
  trace : List MEv
  deriving Repr, DecidableEq

/-- The override / real-creation / restore sequence of
`HackerDevice::CreateTexture2D` (HackerDevice.cpp:2394-2399): the restore runs
immediately after the single real creation call, regardless of its result
(`createOk` is the external device's outcome).  The hash computation and
post-creation resource bookkeeping never touch the stereo mode and are outside
this scope. -/
def CreateTexture2D_modeScope (g : StereoCfg) (ms : List TexOverride)
    (origDesc : Option Texture2DDesc) (createOk : Bool) (st : StereoState) :
    Texture2DOutcome :=
  let p := process_texture_override2D g ms origDesc st
  let r := restore_old_surface_create_mode p.oldMode p.state
  { ok := createOk, rules := p.rules, state := r.1,
    trace := p.trace ++ [MEv.create createOk] ++ r.2 }

/-- Helper: iterating the gate on a rule configured with counter 0 and
iteration set {3} leaves the counter at the number of attempts made. -/
theorem gateStep_iterate (t : TexOverride) (k : Nat) :
    gateStep^[k] { t with iterations := [0, 3] } = { t with iterations := [(k : Int), 3] } := by
  induction k with
  | zero => simp
  | succ n ih =>
    rw [Function.iterate_succ_apply', ih]
    have hc : ((n + 1 : Nat) : Int) = (n : Int) + 1 := by push_cast; ring
    rw [hc]
    simp [gateStep, check_texture_override_iteration]

/-- Claim C6: whenever the override matcher decides a stereo surface-creation
mode change, the process-global mode is saved and swapped before the single
real creation call and unconditionally restored to the saved value right after
it, including when the creation fails; the mode-scope lock is acquired before
the swap and released only after the restore; and when no change is pending
the mode is never written. -/
theorem stereo_mode_swap_restore_scope (g : StereoCfg) (ms : List TexOverride)
    (origDesc : Option Texture2DDesc) (createOk : Bool) (st : StereoState)
    (hm : st.mode ≠ -1) :
    (CreateTexture2D_modeScope g ms origDesc createOk st).state.mode = st.mode ∧
    (CreateTexture2D_modeScope g ms origDesc createOk st).state.lockDepth = st.lockDepth ∧
    (CreateTexture2D_modeScope g ms origDesc createOk st).trace =
      (if (override_core2D g ms origDesc).2.1 = -1 then
        [MEv.lock, MEv.create createOk, MEv.unlock]
      else
        [MEv.lock, MEv.getMode st.mode, MEv.setMode (override_core2D g ms origDesc).2.1,
         MEv.create createOk, MEv.setMode st.mode, MEv.unlock]) := by
  by_cases hnm : (override_core2D g ms origDesc).2.1 = -1
  · simp [CreateTexture2D_modeScope, process_texture_override2D,
      restore_old_surface_create_mode, hnm]
  · simp [CreateTexture2D_modeScope, process_texture_override2D,
      restore_old_surface_create_mode, hnm, hm]

/-- An always-passing override rule that only sets stereo mode 7. -/
def ruleStereo7 : TexOverride :=
  { iterations := [], format := -1, width := -1, widthMultiply := 1,
    height := -1, heightMultiply := 1, stereoMode := 7 }

/-- A non-square 2D description. -/
def dRect : Texture2DDesc := { Width := 640, Height := 480, Format := 0, Usage := 0 }

/-- Unlocked driver state in mode 0. -/
def stereoSt0 : StereoState := { mode := 0, lockDepth := 0 }

/-- Witness for the claim-C6 theorem: one matching rule forces mode 7 and the
creation fails, yet the mode is restored and the lock released. -/
theorem stereo_mode_swap_restore_scope_witness :
    stereoSt0.mode ≠ -1 ∧
    ((CreateTexture2D_modeScope { gSurfaceSquareCreateMode := -1 } [ruleStereo7]
        (some dRect) false stereoSt0).state.mode = stereoSt0.mode ∧
      (CreateTexture2D_modeScope { gSurfaceSquareCreateMode := -1 } [ruleStereo7]
        (some dRect) false stereoSt0).state.lockDepth = stereoSt0.lockDepth ∧
      (CreateTexture2D_modeScope { gSurfaceSquareCreateMode := -1 } [ruleStereo7]
        (some dRect) false stereoSt0).trace =
        (if (override_core2D { gSurfaceSquareCreateMode := -1 } [ruleStereo7]
              (some dRect)).2.1 = -1 then
          [MEv.lock, MEv.create false, MEv.unlock]
        else
          [MEv.lock, MEv.getMode stereoSt0.mode,
           MEv.setMode (override_core2D { gSurfaceSquareCreateMode := -1 } [ruleStereo7]
              (some dRect)).2.1,
           MEv.create false, MEv.setMode stereoSt0.mode, MEv.unlock])) :=
  ⟨by decide,
    stereo_mode_swap_restore_scope { gSurfaceSquareCreateMode := -1 } [ruleStereo7]
      (some dRect) false stereoSt0 (by decide)⟩

/-- Claim C7: a rule's per-rule counter is incremented on every match attempt
against it (independent of whether the rule changes anything), the gate passes
exactly when the incremented count is a member of the configured iteration
values, a rule gated to iteration set {3} fires on the 3rd matching attempt
and on no other, and a gated-off attempt leaves the description untouched. -/
theorem iteration_gate_counts (t : TexOverride) (c : Int) (rest : List Int)
    (hit : t.iterations = c :: rest) :
    (check_texture_override_iteration t).2 = { t with iterations := (c + 1) :: rest } ∧
    ((check_texture_override_iteration t).1 = rest.contains (c + 1)) ∧
    (∀ (d : Texture2DDesc) (m : Int) (ts : List TexOverride),
      (apply_matches override_resource_desc2D d m ts).2.2 = ts.map gateStep) ∧
    (∀ n : Nat, 1 ≤ n →
      ((check_texture_override_iteration
          (gateStep^[n - 1] { t with iterations := [0, 3] })).1 = true ↔ n = 3)) ∧
    (∀ (d : Texture2DDesc) (m : Int),
      (check_texture_override_iteration t).1 = false →
      (apply_matches override_resource_desc2D d m [t]).1 = d) := by
  refine ⟨?_, ?_, ?_, ?_, ?_⟩
  · simp [check_texture_override_iteration, hit]
  · simp [check_texture_override_iteration, hit]
  · intro d m ts
    induction ts generalizing d m with
    | nil => rfl
    | cons t2 ts2 ih =>
      by_cases hg : (check_texture_override_iteration t2).1 = true
      · simp [apply_matches, hg, gateStep, ih]
      · simp [apply_matches, hg, gateStep, ih]
  · intro n hn
    rw [gateStep_iterate]
    simp only [check_texture_override_iteration, List.contains_cons, List.contains_nil,
      Bool.or_false, beq_iff_eq]
    omega
  · intro d m hg
    simp [apply_matches, hg]

/-- The rule gated to the iteration set {3}, with counter 0, and no other
effect. -/
def ruleIter3 : TexOverride :=
  { iterations := [0, 3], format := -1, width := -1, widthMultiply := 1,
    height := -1, heightMultiply := 1, stereoMode := -1 }

/-- Witness for the claim-C7 theorem at the concrete rule `ruleIter3`. -/
theorem iteration_gate_counts_witness :
    ruleIter3.iterations = (0 : Int) :: [3] ∧
    ((check_texture_override_iteration ruleIter3).2 =
        { ruleIter3 with iterations := ((0 : Int) + 1) :: [3] } ∧
      ((check_texture_override_iteration ruleIter3).1 = ([3] : List Int).contains (0 + 1)) ∧
      (∀ (d : Texture2DDesc) (m : Int) (ts : List TexOverride),
        (apply_matches override_resource_desc2D d m ts).2.2 = ts.map gateStep) ∧
      (∀ n : Nat, 1 ≤ n →
        ((check_texture_override_iteration
            (gateStep^[n - 1] { ruleIter3 with iterations := [0, 3] })).1 = true ↔ n = 3)) ∧
      (∀ (d : Texture2DDesc) (m : Int),
        (check_texture_override_iteration ruleIter3).1 = false →
        (apply_matches override_resource_desc2D d m [ruleIter3]).1 = d)) :=
  ⟨rfl, iteration_gate_counts ruleIter3 0 [3] rfl⟩

/-- Counterexample to claim C9 as stated: usage 3 (STAGING) is not IMMUTABLE
(= 1), yet a square STAGING surface with a configured square-surface default
mode receives no pending mode change, because the source tests the usage with
a bitwise AND against IMMUTABLE and STAGING shares that bit. -/
theorem square_staging_gets_no_default :
    (3 : Nat) ≠ 1 ∧
    (override_core2D { gSurfaceSquareCreateMode := 2 } []
        (some { Width := 512, Height := 512, Format := 0, Usage := 3 })).2.1 = -1 := by
  decide

/-- Claim C9 (amended): a square 2D surface whose usage has the IMMUTABLE bit
clear (DEFAULT or DYNAMIC - the source's bitwise test also excludes STAGING)
receives the configured square-surface default before any rule is consulted;
an explicit matching rule that sets a stereo mode overrides the default and
among several the last writer wins; non-square or IMMUTABLE-bit 2D surfaces
never receive the default; and for non-2D resources (buffers) the pending mode
is independent of the configured square-surface default. -/
theorem square_surface_default_before_rules (g : StereoCfg) (d : Texture2DDesc)
    (t1 t2 : TexOverride) :
    (0 ≤ g.gSurfaceSquareCreateMode → d.Width = d.Height → d.Usage &&& 1 = 0 →
      (override_core2D g [] (some d)).2.1 = g.gSurfaceSquareCreateMode) ∧
    ((d.Width ≠ d.Height ∨ d.Usage &&& 1 ≠ 0) →
      (override_core2D g [] (some d)).2.1 = -1) ∧
    (t1.iterations = [] → t1.stereoMode ≠ -1 →
      (override_core2D g [t1] (some d)).2.1 = t1.stereoMode) ∧
    (t1.iterations = [] → t2.iterations = [] → t1.stereoMode ≠ -1 → t2.stereoMode ≠ -1 →
      (override_core2D g [t1, t2] (some d)).2.1 = t2.stereoMode) ∧
    (∀ (a b : Int) (ms : List TexOverride) (bd : Option BufferDesc),
      override_coreBuffer { gSurfaceSquareCreateMode := a } ms bd =
        override_coreBuffer { gSurfaceSquareCreateMode := b } ms bd) := by
  refine ⟨?_, ?_, ?_, ?_, ?_⟩
  · intro h1 h2 h3
    simp [override_core2D, override_core, is_square_surface2D, h1, h2, h3]
  · intro hno
    have hsq : is_square_surface2D g (some d) = false := by
      rcases hno with hne | hus
      · simp [is_square_surface2D, hne]
      · rw [Nat.and_one_is_mod] at hus
        simp [is_square_surface2D, Nat.and_one_is_mod, hus]
    simp [override_core2D, override_core, hsq]
  · intro ht1 hs1
    simp [override_core2D, override_core, apply_matches,
      check_texture_override_iteration, ht1, hs1]
  · intro ht1 ht2 hs1 hs2
    simp [override_core2D, override_core, apply_matches,
      check_texture_override_iteration, ht1, ht2, hs1, hs2]
  · intro a b ms bd
    cases bd <;> rfl

/-- Witness for the amended claim-C9 theorem: usage DEFAULT square surface
receives default mode 2 with no rules, and the explicit rule forcing mode 7
overrides it. -/
theorem square_surface_default_before_rules_witness :
    (override_core2D { gSurfaceSquareCreateMode := 2 } []
        (some { Width := 64, Height := 64, Format := 0, Usage := 0 })).2.1 = 2 ∧
    (override_core2D { gSurfaceSquareCreateMode := 2 } [ruleStereo7]
        (some { Width := 64, Height := 64, Format := 0, Usage := 0 })).2.1 = 7 :=
  ⟨(square_surface_default_before_rules { gSurfaceSquareCreateMode := 2 }
      { Width := 64, Height := 64, Format := 0, Usage := 0 } ruleStereo7 ruleStereo7).1
      (by decide) rfl (by decide),
    (square_surface_default_before_rules { gSurfaceSquareCreateMode := 2 }
      { Width := 64, Height := 64, Format := 0, Usage := 0 } ruleStereo7 ruleStereo7).2.2.1
      rfl (by decide)⟩

end HackerDevice
